import Mathlib

/-!
# JNI bridge of `ZMQ.Context` (Context.cpp)

A shallow embedding of `jzmq-jni/src/main/c++/Context.cpp`.

The translation unit is glue between two external collaborators:

* the native messaging library (`zmq_init`, `zmq_term`, `zmq_errno`, `zmq_ctx_set`,
  `zmq_ctx_get`, `zmq_error_handler`), embedded as an arbitrary deterministic transition
  system `ZmqLib σ` over an abstract library state `σ`;
* the managed runtime reached through JNI, embedded as the record `Runtime` (reflection
  tables and outcomes of fallible runtime services) together with the mutable part kept
  in `World` (object fields, attachment of the current thread, pinned references, ...).

Every exported function of the source becomes a function on `World`.  Native calls are
appended to `World.calls` together with the value they returned, so that statements such
as "no native call is made" or "the terminator is invoked exactly once" are statements
about that log.
-/

namespace JZmq

/-! ## Constants of the headers -/

/-- Status `JNI_OK` of jni.h. -/
def JNI_OK : Int := 0

/-- Status `JNI_EDETACHED` of jni.h: the thread is not attached to the VM. -/
def JNI_EDETACHED : Int := -2

/-- Status `JNI_EVERSION` of jni.h: the requested JNI version is not supported. -/
def JNI_EVERSION : Int := -3

/-- Version constant `JNI_VERSION_1_8` of jni.h. -/
def JNI_VERSION_1_8 : Int := 0x00010008

/-- Option identifier `ZMQ_MAX_SOCKETS` of zmq.h. -/
def ZMQ_MAX_SOCKETS : Int := 2

/-- Macro `ZMQ_MAKE_VERSION` of zmq.h. -/
def ZMQ_MAKE_VERSION (major minor patch : Nat) : Nat :=
  major * 10000 + minor * 100 + patch

/-! ## Data model -/

/-- A nullable JNI object reference (`none` is `NULL`). -/
abbrev jobject := Option Nat

/-- A nullable JNI class reference. -/
abbrev jclass := Option Nat

/-- A nullable JNI method identifier. -/
abbrev jmethodID := Option Nat

/-- A nullable managed string. -/
abbrev jstring := Option String

/-- A nullable `JavaVM*`. -/
abbrev JavaVMPtr := Option Nat

/-- A nullable `JNIEnv*`; the interface table itself carries no data in this model. -/
abbrev JNIEnvPtr := Option Unit

/-- The registration record `struct ctx_data`. -/
structure ctx_data where
  vm : JavaVMPtr
  obj : jobject
  method : jmethodID
  errClass : jclass
  errMethod : jmethodID
deriving DecidableEq, Repr

/-- Callback functions this translation unit hands to the native library; the only one
is `zmq_error_cb`. -/
inductive Callback where
  | zmq_error_cb
deriving DecidableEq, Repr

/-- One call into the native library, with its arguments and the value it returned. -/
inductive NativeCall where
  | zmq_init (io_threads : Int) (ret : Nat)
  | zmq_errno (ret : Int)
  | zmq_term (c : Nat) (ret : Int)
  | zmq_ctx_set (c : Nat) (option value : Int) (ret : Int)
  | zmq_ctx_get (c : Nat) (option : Int) (ret : Int)
  | zmq_error_handler (c : Nat) (fn : Option Callback) (data : Option ctx_data) (ret : Int)
deriving DecidableEq, Repr

/-- The native library as an external collaborator: an arbitrary deterministic
transition system over its own state `σ`.  Pointers are natural numbers, `0` is `NULL`.
`ZMQ_VERSION` is the version constant of the zmq.h the unit is compiled against.
`installed s c` is the callback (with its context data) the library would call when an
error occurs on context `c` in state `s`. -/
structure ZmqLib (σ : Type) where
  ZMQ_VERSION : Nat
  zmq_init : Int → σ → Nat × σ
  zmq_errno : σ → Int
  zmq_term : Nat → σ → Int × σ
  zmq_ctx_set : Nat → Int → Int → σ → Int × σ
  zmq_ctx_get : Nat → Int → σ → Int × σ
  zmq_error_handler : Nat → Option Callback → Option ctx_data → σ → Int × σ
  installed : σ → Nat → Option (Callback × Option ctx_data)

/-- Relation of the current native thread to the VM.  A thread is either not attached,
attached with no managed frame on its stack (a native thread attached through
`AttachCurrentThread`), or attached with managed frames below the current native frame
(a managed thread inside a native method). -/
inductive ThreadStatus where
  | detached
  | attachedNative
  | attachedJava
deriving DecidableEq, Repr

/-- Whether the thread is attached to the VM. -/
def ThreadStatus.isAttached : ThreadStatus → Bool
  | .detached => false
  | .attachedNative => true
  | .attachedJava => true

/-- The immutable part of the managed runtime and of the C runtime, as seen by this
unit: reflection tables, the result of the static translator method, and the outcome of
the fallible services (`GetJavaVM`, `AttachCurrentThread`, `malloc`).
`AttachCurrentThread` is the status an attach of a detached thread returns (0 is
success); `malloc` is `none` when allocation fails and otherwise the (arbitrary,
uninitialised) content of the fresh block. -/
structure Runtime where
  GetObjectClass : Nat → Nat
  GetMethodID : Nat → String → String → jmethodID
  FindClass : String → jclass
  GetStaticMethodID : Nat → String → String → jmethodID
  CallStaticObjectMethod : Nat → Nat → Int → jobject
  GetJavaVM : JavaVMPtr
  supports : Int → Bool
  AttachCurrentThread : Int
  malloc : Option ctx_data

/-- One invocation of a managed method through `CallVoidMethod`. -/
structure Invocation where
  obj : jobject
  method : jmethodID
  code : jobject
  host : jstring
deriving DecidableEq, Repr

/-- The mutable state the unit reads and writes.

* `zmq`: state of the native library;
* `calls`: log of the native calls made so far, oldest first;
* `contextptrFID`: whether the static `jfieldID` cache has been filled;
* `contextHandle`: the `long contextHandle` field of every `ZMQ.Context` object, by
  object reference;
* `raised`: codes of the managed exceptions raised so far, oldest first;
* `records`: `ctx_data` records allocated so far (they are never freed);
* `globalRefs`: objects pinned through `NewGlobalRef`;
* `thread`: relation of the current thread to the VM;
* `invoked`: managed methods invoked through `CallVoidMethod`, oldest first;
* `stdout`: diagnostics printed so far. -/
structure World (σ : Type) where
  zmq : σ
  calls : List NativeCall
  contextptrFID : Bool
  contextHandle : Nat → Int
  raised : List Int
  records : List ctx_data
  globalRefs : List Nat
  thread : ThreadStatus
  invoked : List Invocation
  stdout : List String

/-! ## Pointer and `jlong` conversions (64-bit target) -/

/-- The cast `(jlong) s` of a pointer: the 64-bit pattern read as a signed integer. -/
def to_jlong (s : Nat) : Int :=
  if s % 2 ^ 64 < 2 ^ 63 then ((s % 2 ^ 64 : Nat) : Int) else ((s % 2 ^ 64 : Nat) : Int) - 2 ^ 64

/-- The cast `(void*) v` of a `jlong`: the 64-bit pattern read as an address. -/
def to_ptr (v : Int) : Nat :=
  (v % 2 ^ 64).toNat

/-- Range of a `jlong`. -/
def isJlong (v : Int) : Prop :=
  -(2 : Int) ^ 63 ≤ v ∧ v < 2 ^ 63

instance (v : Int) : Decidable (isJlong v) := by
  unfold isJlong; infer_instance

/-! ## Native calls, logged -/

/-- Call `zmq_init` and log it. -/
def call_zmq_init {σ : Type} (L : ZmqLib σ) (io_threads : Int) (w : World σ) : Nat × World σ :=
  let r := L.zmq_init io_threads w.zmq
  (r.1, { w with zmq := r.2, calls := w.calls ++ [NativeCall.zmq_init io_threads r.1] })

/-- Call `zmq_errno` and log it. -/
def call_zmq_errno {σ : Type} (L : ZmqLib σ) (w : World σ) : Int × World σ :=
  let e := L.zmq_errno w.zmq
  (e, { w with calls := w.calls ++ [NativeCall.zmq_errno e] })

/-- Call `zmq_term` and log it. -/
def call_zmq_term {σ : Type} (L : ZmqLib σ) (c : Nat) (w : World σ) : Int × World σ :=
  let r := L.zmq_term c w.zmq
  (r.1, { w with zmq := r.2, calls := w.calls ++ [NativeCall.zmq_term c r.1] })

/-- Call `zmq_ctx_set` and log it. -/
def call_zmq_ctx_set {σ : Type} (L : ZmqLib σ) (c : Nat) (option value : Int) (w : World σ) :
    Int × World σ :=
  let r := L.zmq_ctx_set c option value w.zmq
  (r.1, { w with zmq := r.2, calls := w.calls ++ [NativeCall.zmq_ctx_set c option value r.1] })

/-- Call `zmq_ctx_get` and log it. -/
def call_zmq_ctx_get {σ : Type} (L : ZmqLib σ) (c : Nat) (option : Int) (w : World σ) :
    Int × World σ :=
  let r := L.zmq_ctx_get c option w.zmq
  (r.1, { w with zmq := r.2, calls := w.calls ++ [NativeCall.zmq_ctx_get c option r.1] })

/-- Call `zmq_error_handler` and log it. -/
def call_zmq_error_handler {σ : Type} (L : ZmqLib σ) (c : Nat) (fn : Option Callback)
    (data : Option ctx_data) (w : World σ) : Int × World σ :=
  let r := L.zmq_error_handler c fn data w.zmq
  (r.1, { w with zmq := r.2, calls := w.calls ++ [NativeCall.zmq_error_handler c fn data r.1] })

/-! ## Helpers of the unit -/

/-- Modelled from the spec: `raise_exception` is defined in util.cpp, which is not part
of the sources at hand.  Following the specification ("raise it as a managed-runtime
exception carrying that code") it raises one managed exception carrying the code. -/
def raise_exception {σ : Type} (err : Int) (w : World σ) : World σ :=
  { w with raised := w.raised ++ [err] }

/-- The function `ensure_context`: fill the static field-identifier cache on first use.
Objects of this model are `ZMQ.Context` instances, whose class declares the field
`contextHandle` of type `J`; both assertions of the source therefore hold and the only
effect is that the cache is filled. -/
def ensure_context {σ : Type} (w : World σ) : World σ :=
  if w.contextptrFID = false then { w with contextptrFID := true } else w

/-- The function `get_context`: read `contextHandle` of `obj` as a pointer. -/
def get_context {σ : Type} (obj : Nat) (w : World σ) : Nat × World σ :=
  let w1 := ensure_context w
  (to_ptr (w1.contextHandle obj), w1)

/-- The function `put_context`: store the pointer `s` into `contextHandle` of `obj`. -/
def put_context {σ : Type} (obj : Nat) (s : Nat) (w : World σ) : World σ :=
  let w1 := ensure_context w
  { w1 with contextHandle := Function.update w1.contextHandle obj (to_jlong s) }

/-! ## construct and destroy -/

/-- The native method `Java_org_zeromq_ZMQ_00024Context_construct`. -/
def Java_org_zeromq_ZMQ_00024Context_construct {σ : Type}
    (L : ZmqLib σ) (obj : Nat) (io_threads : Int) (w : World σ) :
    World σ :=
  let g := get_context obj w
  if g.1 ≠ 0 then g.2
  else
    let i := call_zmq_init L io_threads g.2
    let e := call_zmq_errno L i.2
    let w1 := put_context obj i.1 e.2
    if i.1 = 0 then raise_exception e.1 w1 else w1

/-- The native method `Java_org_zeromq_ZMQ_00024Context_destroy`. -/
def Java_org_zeromq_ZMQ_00024Context_destroy {σ : Type}
    (L : ZmqLib σ) (obj : Nat) (w : World σ) :
    World σ :=
  let g := get_context obj w
  if g.1 = 0 then g.2
  else
    let t := call_zmq_term L g.1 g.2
    let e := call_zmq_errno L t.2
    let w1 := put_context obj 0 e.2
    if t.1 ≠ 0 then raise_exception e.1 w1 else w1

/-! ## The error callback -/

/-- The JNI service `NewStringUTF`: marshal a C string into a managed string. -/
def NewStringUTF (s : String) : jstring := some s

/-- The invocation-interface service `GetEnv`: a detached thread gets `JNI_EDETACHED`,
an attached thread gets `JNI_EVERSION` when the version is not supported and `JNI_OK`
otherwise; the environment pointer is set to `NULL` unless the status is `JNI_OK`. -/
def GetEnv {σ : Type} (R : Runtime) (version : Int) (w : World σ) : Int × JNIEnvPtr :=
  match w.thread with
  | .detached => (JNI_EDETACHED, none)
  | _ => if R.supports version then (JNI_OK, some ()) else (JNI_EVERSION, none)

/-- The invocation-interface service `AttachCurrentThread`: a no-op on an attached
thread; on a detached thread it either fails with the status of the runtime or attaches
the thread. -/
def AttachCurrentThread {σ : Type} (R : Runtime) (w : World σ) : Int × JNIEnvPtr × World σ :=
  match w.thread with
  | .detached =>
    if R.AttachCurrentThread = 0 then (0, some (), { w with thread := ThreadStatus.attachedNative })
    else (R.AttachCurrentThread, none, w)
  | _ => (0, some (), w)

/-- The invocation-interface service `DetachCurrentThread`: detaches an attached native
thread; it is a no-op on a detached thread, and fails, leaving the thread attached, when
managed frames are on the stack. -/
def DetachCurrentThread {σ : Type} (w : World σ) : World σ :=
  match w.thread with
  | .attachedNative => { w with thread := ThreadStatus.detached }
  | _ => w

/-- The JNI service `CallVoidMethod`, recorded as an invocation. -/
def CallVoidMethod {σ : Type} (obj : jobject) (method : jmethodID) (code : jobject)
    (str : jstring) (w : World σ) : World σ :=
  { w with invoked := w.invoked ++ [Invocation.mk obj method code str] }

/-- The function `printf`, recorded as a diagnostic line. -/
def printf {σ : Type} (line : String) (w : World σ) : World σ :=
  { w with stdout := w.stdout ++ [line] }

/-- The function `errorByCode`. -/
def errorByCode (R : Runtime) (env : JNIEnvPtr) (errClass : jclass) (errMethod : jmethodID)
    (err : Int) : jobject :=
  match env, errClass, errMethod with
  | some _, some cls, some m => R.CallStaticObjectMethod cls m err
  | _, _, _ => none

/-- Tail of `zmq_error_cb` after the status dispatch: marshal, call back, detach.
Dereferencing a null environment pointer is undefined behaviour (`none`). -/
def zmq_error_cb_call {σ : Type} (R : Runtime) (err : Int) (host : String) (ctx : ctx_data)
    (env : JNIEnvPtr) (w : World σ) : Option (World σ) :=
  match env with
  | none => none
  | some _ =>
    let str := NewStringUTF host
    let w1 := CallVoidMethod ctx.obj ctx.method (errorByCode R env ctx.errClass ctx.errMethod err)
        str w
    some (DetachCurrentThread w1)

/-- The function `zmq_error_cb`.  The result is `none` when the source dereferences a
null pointer (`ctx->vm` or `env`). -/
def zmq_error_cb {σ : Type} (R : Runtime) (err : Int) (host : String) (data : Option ctx_data)
    (w : World σ) : Option (World σ) :=
  match data with
  | none => some w
  | some ctx =>
    match ctx.vm with
    | none => none
    | some _ =>
      let g := GetEnv R JNI_VERSION_1_8 w
      if g.1 = JNI_EDETACHED then
        let a := AttachCurrentThread R w
        if a.1 ≠ 0 then
          some (printf "JNI Error: Failed to attach to current thread!\n" a.2.2)
        else zmq_error_cb_call R err host ctx a.2.1 a.2.2
      else if g.1 = JNI_OK then
        zmq_error_cb_call R err host ctx g.2 w
      else if g.1 = JNI_EVERSION then
        some (printf "JNI Error: Unsupported JVM version!\n" w)
      else zmq_error_cb_call R err host ctx g.2 w

/-- Delivery of an error by the native library on context `c`: the library calls the
callback currently installed on `c`, if any, with the context data it was given. -/
def deliver {σ : Type} (L : ZmqLib σ) (R : Runtime) (c : Nat) (err : Int) (host : String)
    (w : World σ) : Option (World σ) :=
  match L.installed w.zmq c with
  | none => some w
  | some (Callback.zmq_error_cb, data) => zmq_error_cb R err host data w

/-! ## setErrorHandler, setMaxSockets, getMaxSockets -/

/-- The JNI service `NewGlobalRef`: pin the object and return the pinned reference. -/
def NewGlobalRef {σ : Type} (o : Nat) (w : World σ) : jobject × World σ :=
  (some o, { w with globalRefs := w.globalRefs ++ [o] })

/-- Resolution of the translator in `setErrorHandler`: `FindClass`, then
`GetStaticMethodID` when the class was found; `errMethod` keeps the content of the
fresh block otherwise. -/
def resolve_translator {σ : Type} (R : Runtime) (data : ctx_data) (w : World σ) :
    ctx_data × World σ :=
  let d1 := { data with errClass := R.FindClass "org/zeromq/ZMQ$Error" }
  match d1.errClass with
  | none => (d1, printf "JNI Error: org/zeromq/ZMQ$Error class not found!\n" w)
  | some cls =>
    let d2 :=
      { d1 with errMethod := R.GetStaticMethodID cls "findByCode" "(I)Lorg/zeromq/ZMQ$Error;" }
    if d2.errMethod = none then
      (d2, printf "JNI Error: org/zeromq/ZMQ$Error.findByCode(int) method not found!\n" w)
    else (d2, w)

/-- The native method `Java_org_zeromq_ZMQ_00024Context_setErrorHandler`. -/
def Java_org_zeromq_ZMQ_00024Context_setErrorHandler {σ : Type}
    (L : ZmqLib σ) (R : Runtime) (obj : Nat) (error : jobject) (w : World σ) :
    Bool × World σ :=
  if L.ZMQ_VERSION ≥ ZMQ_MAKE_VERSION 4 2 3 then
    let g := get_context obj w
    if g.1 = 0 then (false, g.2)
    else
      match error with
      | none =>
        let r := call_zmq_error_handler L g.1 none none g.2
        (decide (r.1 = 0), r.2)
      | some e =>
        let _str := NewStringUTF "test string"
        let objclass := R.GetObjectClass e
        match R.GetMethodID objclass "reportError" "(Lorg/zeromq/ZMQ$Error;Ljava/lang/String;)I"
            with
        | none => (false, g.2)
        | some method =>
          match R.malloc with
          | none => (false, g.2)
          | some raw =>
            let d1 := { raw with method := some method }
            let n := NewGlobalRef e g.2
            let d2 := { d1 with obj := n.1 }
            let d3 := { d2 with vm := R.GetJavaVM }
            let t := resolve_translator R d3 n.2
            let w1 := { t.2 with records := t.2.records ++ [t.1] }
            let r := call_zmq_error_handler L g.1 (some Callback.zmq_error_cb) (some t.1) w1
            (decide (r.1 = 0), r.2)
  else (false, w)

/-- The native method `Java_org_zeromq_ZMQ_00024Context_setMaxSockets`. -/
def Java_org_zeromq_ZMQ_00024Context_setMaxSockets {σ : Type}
    (L : ZmqLib σ) (obj : Nat) (maxSockets : Int) (w : World σ) :
    Bool × World σ :=
  if L.ZMQ_VERSION ≥ ZMQ_MAKE_VERSION 3 0 0 then
    let g := get_context obj w
    if g.1 = 0 then (false, g.2)
    else
      let r := call_zmq_ctx_set L g.1 ZMQ_MAX_SOCKETS maxSockets g.2
      (decide (r.1 = 0), r.2)
  else (false, w)

/-- The native method `Java_org_zeromq_ZMQ_00024Context_getMaxSockets`. -/
def Java_org_zeromq_ZMQ_00024Context_getMaxSockets {σ : Type}
    (L : ZmqLib σ) (obj : Nat) (w : World σ) :
    Int × World σ :=
  if L.ZMQ_VERSION ≥ ZMQ_MAKE_VERSION 3 0 0 then
    let g := get_context obj w
    if g.1 = 0 then (-1, g.2)
    else call_zmq_ctx_get L g.1 ZMQ_MAX_SOCKETS g.2
  else (-1, w)

/-! ## A concrete native library

A small instance of `ZmqLib`, used to exercise the statements below on concrete inputs:
the initializer hands out the pointer `fresh` (0 makes it fail), the terminator and the
handler registration answer with fixed codes, and the maximum-socket option is kept per
context. -/

/-- State of the concrete native library. -/
structure Store where
  errno : Int
  fresh : Nat
  term_rc : Int
  handler_rc : Int
  max_sockets : Nat → Int
  handler : Nat → Option (Callback × Option ctx_data)

/-- The concrete native library, compiled against version `version`. -/
def storeLib (version : Nat) : ZmqLib Store where
  ZMQ_VERSION := version
  zmq_init := fun _ s => (s.fresh, s)
  zmq_errno := fun s => s.errno
  zmq_term := fun _ s => (s.term_rc, s)
  zmq_ctx_set := fun c opt v s =>
    if opt = ZMQ_MAX_SOCKETS ∧ 1 ≤ v then
      (0, { s with max_sockets := Function.update s.max_sockets c v })
    else (-1, { s with errno := 22 })
  zmq_ctx_get := fun c opt s =>
    if opt = ZMQ_MAX_SOCKETS then (s.max_sockets c, s) else (-1, { s with errno := 22 })
  zmq_error_handler := fun c fn data s =>
    if s.handler_rc = 0 then
      (0, { s with handler := Function.update s.handler c (fn.map fun f => (f, data)) })
    else (s.handler_rc, s)
  installed := fun s c => s.handler c

/-- A library state: last error 12, next pointer `fresh`, terminator code `term_rc`,
registration code `handler_rc`, 1023 sockets everywhere, no callback installed. -/
def store0 (fresh : Nat) (term_rc handler_rc : Int) : Store where
  errno := 12
  fresh := fresh
  term_rc := term_rc
  handler_rc := handler_rc
  max_sockets := fun _ => 1023
  handler := fun _ => none

/-- A world in which every object holds `handle`, nothing has happened yet, and the
current thread has status `t`. -/
def world0 (s : Store) (handle : Int) (t : ThreadStatus) : World Store where
  zmq := s
  calls := []
  contextptrFID := false
  contextHandle := fun _ => handle
  raised := []
  records := []
  globalRefs := []
  thread := t
  invoked := []
  stdout := []

/-- A runtime in which the class of every object is class 1, class 1 declares
`reportError` as method 7 exactly when `hasMethod`, the translator class is class 2 with
`findByCode` as method 8 mapping code `n` to object `100 + n`, JNI 1.8 is supported
exactly when `supported`, and attaching a thread returns `attach_rc`. -/
def runtime0 (hasMethod supported : Bool) (attach_rc : Int) : Runtime where
  GetObjectClass := fun _ => 1
  GetMethodID := fun _ _ _ => if hasMethod then some 7 else none
  FindClass := fun _ => some 2
  GetStaticMethodID := fun _ _ _ => some 8
  CallStaticObjectMethod := fun _ _ n => some (100 + n.toNat)
  GetJavaVM := some 1
  supports := fun _ => supported
  AttachCurrentThread := attach_rc
  malloc := some (ctx_data.mk none none none none none)

/-- A registration record as `setErrorHandler` builds it in `runtime0` for target 5. -/
def record0 : ctx_data where
  vm := some 1
  obj := some 5
  method := some 7
  errClass := some 2
  errMethod := some 8

/-- The runtime `runtime0 true true 0` in which `GetJavaVM` fails and leaves the
pointer it was given untouched. -/
def runtime1 : Runtime :=
  { runtime0 true true 0 with GetJavaVM := none }

/-- The registration record `setErrorHandler` builds in `runtime1` for target 5: as
`record0`, with a null VM pointer. -/
def record1 : ctx_data where
  vm := none
  obj := some 5
  method := some 7
  errClass := some 2
  errMethod := some 8

/-- The library state `store0 0 0 handler_rc` in which the callback `zmq_error_cb` is
installed on context 4096 with `record0` as context data. -/
def store1 (handler_rc : Int) : Store :=
  { store0 0 0 handler_rc with
    handler := fun c => if c = 4096 then some (Callback.zmq_error_cb, some record0) else none }

/-! ## Facts about the helpers -/

theorem to_ptr_zero : to_ptr 0 = 0 := by
  simp [to_ptr]

theorem to_jlong_zero : to_jlong 0 = 0 := by
  simp [to_jlong]

theorem to_ptr_ne_zero (v : Int) (hr : isJlong v) (hv : v ≠ 0) : to_ptr v ≠ 0 := by
  unfold isJlong at hr
  unfold to_ptr
  omega

theorem to_ptr_to_jlong (p : Nat) (hp : p < 2 ^ 64) : to_ptr (to_jlong p) = p := by
  unfold to_ptr to_jlong
  split <;> omega

theorem to_jlong_ne_zero (p : Nat) (hp : p < 2 ^ 64) (h0 : p ≠ 0) : to_jlong p ≠ 0 := by
  unfold to_jlong
  split <;> omega

theorem isJlong_to_jlong (p : Nat) : isJlong (to_jlong p) := by
  unfold isJlong to_jlong
  split <;> omega

@[simp] theorem ensure_context_zmq {σ : Type} (w : World σ) : (ensure_context w).zmq = w.zmq := by
  unfold ensure_context; split <;> rfl

@[simp] theorem ensure_context_calls {σ : Type} (w : World σ) :
    (ensure_context w).calls = w.calls := by
  unfold ensure_context; split <;> rfl

@[simp] theorem ensure_context_contextHandle {σ : Type} (w : World σ) :
    (ensure_context w).contextHandle = w.contextHandle := by
  unfold ensure_context; split <;> rfl

@[simp] theorem ensure_context_raised {σ : Type} (w : World σ) :
    (ensure_context w).raised = w.raised := by
  unfold ensure_context; split <;> rfl

@[simp] theorem ensure_context_records {σ : Type} (w : World σ) :
    (ensure_context w).records = w.records := by
  unfold ensure_context; split <;> rfl

@[simp] theorem ensure_context_globalRefs {σ : Type} (w : World σ) :
    (ensure_context w).globalRefs = w.globalRefs := by
  unfold ensure_context; split <;> rfl

@[simp] theorem ensure_context_thread {σ : Type} (w : World σ) :
    (ensure_context w).thread = w.thread := by
  unfold ensure_context; split <;> rfl

@[simp] theorem ensure_context_invoked {σ : Type} (w : World σ) :
    (ensure_context w).invoked = w.invoked := by
  unfold ensure_context; split <;> rfl

@[simp] theorem ensure_context_stdout {σ : Type} (w : World σ) :
    (ensure_context w).stdout = w.stdout := by
  unfold ensure_context; split <;> rfl

@[simp] theorem ensure_context_contextptrFID {σ : Type} (w : World σ) :
    (ensure_context w).contextptrFID = true := by
  unfold ensure_context; split
  · rfl
  · simp_all

theorem ensure_context_of_filled {σ : Type} (w : World σ) (h : w.contextptrFID = true) :
    ensure_context w = w := by
  unfold ensure_context; simp [h]

theorem construct_of_live {σ : Type} (L : ZmqLib σ) (obj : Nat) (io_threads : Int) (w : World σ)
    (hfid : w.contextptrFID = true) (hp : to_ptr (w.contextHandle obj) ≠ 0) :
    Java_org_zeromq_ZMQ_00024Context_construct L obj io_threads w = w := by
  simp [Java_org_zeromq_ZMQ_00024Context_construct, get_context, ensure_context_of_filled _ hfid,
      hp]

theorem destroy_of_absent {σ : Type} (L : ZmqLib σ) (obj : Nat) (w : World σ)
    (hfid : w.contextptrFID = true) (h0 : w.contextHandle obj = 0) :
    Java_org_zeromq_ZMQ_00024Context_destroy L obj w = w := by
  simp [Java_org_zeromq_ZMQ_00024Context_destroy, get_context, ensure_context_of_filled _ hfid, h0,
      to_ptr_zero]

/-! ## construct -/

/-- Claim C1: when the handle field of the object is absent and the native initializer
returns a null handle, construct makes exactly the calls zmq_init and then zmq_errno,
raises exactly one exception, whose code is the last-error code of the library state
right after the initializer, and leaves the handle field absent. -/
theorem construct_failure_raises_errno {σ : Type} (L : ZmqLib σ) (obj : Nat) (io_threads : Int)
    (w : World σ) (habsent : w.contextHandle obj = 0)
    (hnull : (L.zmq_init io_threads w.zmq).1 = 0) :
    (Java_org_zeromq_ZMQ_00024Context_construct L obj io_threads w).raised
        = w.raised ++ [L.zmq_errno (L.zmq_init io_threads w.zmq).2]
      ∧ (Java_org_zeromq_ZMQ_00024Context_construct L obj io_threads w).calls
        = w.calls ++ [NativeCall.zmq_init io_threads 0,
                      NativeCall.zmq_errno (L.zmq_errno (L.zmq_init io_threads w.zmq).2)]
      ∧ (Java_org_zeromq_ZMQ_00024Context_construct L obj io_threads w).contextHandle obj = 0 := by
  simp [Java_org_zeromq_ZMQ_00024Context_construct, get_context, put_context, call_zmq_init,
      call_zmq_errno, raise_exception,
    habsent, hnull, to_ptr_zero, to_jlong_zero]

/-- Concrete instance: the concrete library fails to initialise with last error 12. -/
theorem construct_failure_raises_errno_witness :
    (Java_org_zeromq_ZMQ_00024Context_construct (storeLib 40203) 0 4 (world0 (store0 0 0 0) 0
        ThreadStatus.detached)).raised = [12]
      ∧ (Java_org_zeromq_ZMQ_00024Context_construct (storeLib 40203) 0 4 (world0 (store0 0 0 0) 0
          ThreadStatus.detached)).calls
        = [NativeCall.zmq_init 4 0, NativeCall.zmq_errno 12]
      ∧ (Java_org_zeromq_ZMQ_00024Context_construct (storeLib 40203) 0 4
          (world0 (store0 0 0 0) 0 ThreadStatus.detached)).contextHandle 0 = 0 :=
  construct_failure_raises_errno (storeLib 40203) 0 4
    (world0 (store0 0 0 0) 0 ThreadStatus.detached) rfl rfl

/-- Claim C3: when the handle field is absent and the initializer returns a non-null
pointer h (of the 64-bit address space), the handle field holds h after construct, and a
second construct on the same object, with any argument, changes nothing at all: no
native call is logged, no exception is raised and the handle field still holds h. -/
theorem construct_twice_is_noop {σ : Type} (L : ZmqLib σ) (obj : Nat) (io1 io2 : Int)
    (w : World σ) (habsent : w.contextHandle obj = 0)
    (hok : (L.zmq_init io1 w.zmq).1 ≠ 0) (hptr : (L.zmq_init io1 w.zmq).1 < 2 ^ 64) :
    (Java_org_zeromq_ZMQ_00024Context_construct L obj io1 w).contextHandle obj
        = to_jlong (L.zmq_init io1 w.zmq).1
      ∧ (Java_org_zeromq_ZMQ_00024Context_construct L obj io1 w).contextHandle obj ≠ 0
      ∧ (get_context obj (Java_org_zeromq_ZMQ_00024Context_construct L obj io1 w)).1
        = (L.zmq_init io1 w.zmq).1
      ∧ (Java_org_zeromq_ZMQ_00024Context_construct L obj io1 w).raised = w.raised
      ∧ (Java_org_zeromq_ZMQ_00024Context_construct L obj io2
            (Java_org_zeromq_ZMQ_00024Context_construct L obj io1 w)).calls
        = (Java_org_zeromq_ZMQ_00024Context_construct L obj io1 w).calls
      ∧ (Java_org_zeromq_ZMQ_00024Context_construct L obj io2
            (Java_org_zeromq_ZMQ_00024Context_construct L obj io1 w)).raised
        = (Java_org_zeromq_ZMQ_00024Context_construct L obj io1 w).raised
      ∧ (Java_org_zeromq_ZMQ_00024Context_construct L obj io2
            (Java_org_zeromq_ZMQ_00024Context_construct L obj io1 w)).contextHandle obj
        = to_jlong (L.zmq_init io1 w.zmq).1
      ∧ Java_org_zeromq_ZMQ_00024Context_construct L obj io2
            (Java_org_zeromq_ZMQ_00024Context_construct L obj io1 w)
        = Java_org_zeromq_ZMQ_00024Context_construct L obj io1 w := by
  have hfirst : Java_org_zeromq_ZMQ_00024Context_construct L obj io1 w
      = put_context obj (L.zmq_init io1 w.zmq).1
          (call_zmq_errno L (call_zmq_init L io1 (ensure_context w)).2).2 := by
    simp [Java_org_zeromq_ZMQ_00024Context_construct, get_context, call_zmq_init, call_zmq_errno,
        habsent, hok, to_ptr_zero]
  have hfield : (Java_org_zeromq_ZMQ_00024Context_construct L obj io1 w).contextHandle obj =
      to_jlong (L.zmq_init io1 w.zmq).1 := by
    rw [hfirst]; simp [put_context]
  have hget : (get_context obj (Java_org_zeromq_ZMQ_00024Context_construct L obj io1 w)).1 =
      (L.zmq_init io1 w.zmq).1 := by
    simp [get_context, hfield, to_ptr_to_jlong _ hptr]
  have hfid : (Java_org_zeromq_ZMQ_00024Context_construct L obj io1 w).contextptrFID = true := by
    rw [hfirst]; simp [put_context]
  have hsecond : Java_org_zeromq_ZMQ_00024Context_construct L obj io2
      (Java_org_zeromq_ZMQ_00024Context_construct L obj io1 w) =
      Java_org_zeromq_ZMQ_00024Context_construct L obj io1 w := by
    have hg : to_ptr ((Java_org_zeromq_ZMQ_00024Context_construct L obj io1 w).contextHandle obj) ≠
        0 := by
      rw [hfield, to_ptr_to_jlong _ hptr]; exact hok
    exact construct_of_live L obj io2 _ hfid hg
  refine ⟨hfield, ?_, hget, ?_, ?_, ?_, ?_, hsecond⟩
  · rw [hfield]; exact to_jlong_ne_zero _ hptr hok
  · rw [hfirst]; simp [put_context, call_zmq_init, call_zmq_errno]
  · rw [hsecond]
  · rw [hsecond]
  · rw [hsecond]; exact hfield

/-- Concrete instance: the concrete library hands out pointer 4096. -/
theorem construct_twice_is_noop_witness :
    (Java_org_zeromq_ZMQ_00024Context_construct (storeLib 40203) 0 4
        (world0 (store0 4096 0 0) 0 ThreadStatus.detached)).contextHandle 0 = 4096
      ∧ (Java_org_zeromq_ZMQ_00024Context_construct (storeLib 40203) 0 9
          (Java_org_zeromq_ZMQ_00024Context_construct (storeLib 40203) 0 4
          (world0 (store0 4096 0 0) 0 ThreadStatus.detached))).calls
        = [NativeCall.zmq_init 4 4096, NativeCall.zmq_errno 12] :=
  have h := construct_twice_is_noop (storeLib 40203) 0 4 9
    (world0 (store0 4096 0 0) 0 ThreadStatus.detached) rfl (by decide) (by decide)
  ⟨h.1, h.2.2.2.2.1⟩

/-! ## destroy -/

/-- Claim C2: on an object holding a live handle, destroy calls the terminator on that
handle, reads the last error right after it, leaves the handle field absent whatever the
terminator returned, and raises an exception exactly when the terminator returned a
non-zero code, the exception carrying the last-error code read after the terminator. -/
theorem destroy_clears_then_raises {σ : Type} (L : ZmqLib σ) (obj : Nat) (w : World σ)
    (hr : isJlong (w.contextHandle obj)) (hlive : w.contextHandle obj ≠ 0) :
    (Java_org_zeromq_ZMQ_00024Context_destroy L obj w).contextHandle obj = 0
      ∧ (Java_org_zeromq_ZMQ_00024Context_destroy L obj w).calls
        = w.calls ++ [NativeCall.zmq_term (to_ptr (w.contextHandle obj))
                        (L.zmq_term (to_ptr (w.contextHandle obj)) w.zmq).1,
                      NativeCall.zmq_errno
                        (L.zmq_errno (L.zmq_term (to_ptr (w.contextHandle obj)) w.zmq).2)]
      ∧ ((L.zmq_term (to_ptr (w.contextHandle obj)) w.zmq).1 ≠ 0 →
          (Java_org_zeromq_ZMQ_00024Context_destroy L obj w).raised
            = w.raised ++ [L.zmq_errno (L.zmq_term (to_ptr (w.contextHandle obj)) w.zmq).2])
      ∧ ((L.zmq_term (to_ptr (w.contextHandle obj)) w.zmq).1 = 0 →
          (Java_org_zeromq_ZMQ_00024Context_destroy L obj w).raised = w.raised)
      ∧ ((Java_org_zeromq_ZMQ_00024Context_destroy L obj w).raised ≠ w.raised
          ↔ (L.zmq_term (to_ptr (w.contextHandle obj)) w.zmq).1 ≠ 0) := by
  have hp := to_ptr_ne_zero _ hr hlive
  by_cases hrc : (L.zmq_term (to_ptr (w.contextHandle obj)) w.zmq).1 = 0
  · simp [Java_org_zeromq_ZMQ_00024Context_destroy, get_context, put_context, call_zmq_term,
      call_zmq_errno, raise_exception,
      hp, hrc, to_jlong_zero]
  · simp [Java_org_zeromq_ZMQ_00024Context_destroy, get_context, put_context, call_zmq_term,
      call_zmq_errno, raise_exception,
      hp, hrc, to_jlong_zero]

/-- Concrete instance: handle 4096, the terminator fails with code -1 and last error 12. -/
theorem destroy_clears_then_raises_witness :
    (Java_org_zeromq_ZMQ_00024Context_destroy (storeLib 40203) 0 (world0 (store0 0 (-1) 0) 4096
        ThreadStatus.detached)).contextHandle 0
        = 0
      ∧ (Java_org_zeromq_ZMQ_00024Context_destroy (storeLib 40203) 0
          (world0 (store0 0 (-1) 0) 4096 ThreadStatus.detached)).raised = [12] :=
  have h := destroy_clears_then_raises (storeLib 40203) 0
    (world0 (store0 0 (-1) 0) 4096 ThreadStatus.detached) (by decide) (by decide)
  ⟨h.1, h.2.2.1 (by decide)⟩

/-- Claim C4: on an object holding a live handle, two destroy calls in a row log exactly
one terminator call, made by the first call on that handle; the second call changes
nothing at all (no native call, no exception, handle field absent), whatever code the
terminator returned in the first call. -/
theorem destroy_twice_terminates_once {σ : Type} (L : ZmqLib σ) (obj : Nat) (w : World σ)
    (hr : isJlong (w.contextHandle obj)) (hlive : w.contextHandle obj ≠ 0) :
    (Java_org_zeromq_ZMQ_00024Context_destroy L obj w).calls
        = w.calls ++ [NativeCall.zmq_term (to_ptr (w.contextHandle obj))
                        (L.zmq_term (to_ptr (w.contextHandle obj)) w.zmq).1,
                      NativeCall.zmq_errno
                        (L.zmq_errno (L.zmq_term (to_ptr (w.contextHandle obj)) w.zmq).2)]
      ∧ (Java_org_zeromq_ZMQ_00024Context_destroy L obj
            (Java_org_zeromq_ZMQ_00024Context_destroy L obj w)).calls
        = (Java_org_zeromq_ZMQ_00024Context_destroy L obj w).calls
      ∧ (Java_org_zeromq_ZMQ_00024Context_destroy L obj
            (Java_org_zeromq_ZMQ_00024Context_destroy L obj w)).raised
        = (Java_org_zeromq_ZMQ_00024Context_destroy L obj w).raised
      ∧ (Java_org_zeromq_ZMQ_00024Context_destroy L obj
            (Java_org_zeromq_ZMQ_00024Context_destroy L obj w)).contextHandle obj = 0
      ∧ Java_org_zeromq_ZMQ_00024Context_destroy L obj
            (Java_org_zeromq_ZMQ_00024Context_destroy L obj w)
        = Java_org_zeromq_ZMQ_00024Context_destroy L obj w := by
  have hp := to_ptr_ne_zero _ hr hlive
  have hfield : (Java_org_zeromq_ZMQ_00024Context_destroy L obj w).contextHandle obj = 0 := by
    by_cases hrc : (L.zmq_term (to_ptr (w.contextHandle obj)) w.zmq).1 = 0 <;>
      simp [Java_org_zeromq_ZMQ_00024Context_destroy, get_context, put_context, call_zmq_term,
          call_zmq_errno, raise_exception,
        hp, hrc, to_jlong_zero]
  have hfid : (Java_org_zeromq_ZMQ_00024Context_destroy L obj w).contextptrFID = true := by
    by_cases hrc : (L.zmq_term (to_ptr (w.contextHandle obj)) w.zmq).1 = 0 <;>
      simp [Java_org_zeromq_ZMQ_00024Context_destroy, get_context, put_context, call_zmq_term,
          call_zmq_errno, raise_exception,
        hp, hrc]
  have hsecond : Java_org_zeromq_ZMQ_00024Context_destroy L obj
        (Java_org_zeromq_ZMQ_00024Context_destroy L obj w)
      = Java_org_zeromq_ZMQ_00024Context_destroy L obj w :=
    destroy_of_absent L obj _ hfid hfield
  refine ⟨?_, ?_, ?_, ?_, hsecond⟩
  · by_cases hrc : (L.zmq_term (to_ptr (w.contextHandle obj)) w.zmq).1 = 0 <;>
      simp [Java_org_zeromq_ZMQ_00024Context_destroy, get_context, put_context, call_zmq_term,
          call_zmq_errno, raise_exception,
        hp, hrc]
  · rw [hsecond]
  · rw [hsecond]
  · rw [hsecond]; exact hfield

/-- Concrete instance: handle 4096, the terminator fails with code -1. -/
theorem destroy_twice_terminates_once_witness :
    (Java_org_zeromq_ZMQ_00024Context_destroy (storeLib 40203) 0
        (Java_org_zeromq_ZMQ_00024Context_destroy (storeLib 40203) 0
        (world0 (store0 0 (-1) 0) 4096 ThreadStatus.detached))).calls
      = [NativeCall.zmq_term 4096 (-1), NativeCall.zmq_errno 12] :=
  have h := destroy_twice_terminates_once (storeLib 40203) 0
    (world0 (store0 0 (-1) 0) 4096 ThreadStatus.detached) (by decide) (by decide)
  h.2.1.trans h.1

/-! ## The error callback -/

theorem GetEnv_status {σ : Type} (R : Runtime) (version : Int) (w : World σ) :
    (GetEnv R version w).1 = JNI_EDETACHED ∨ (GetEnv R version w).1 = JNI_OK
      ∨ (GetEnv R version w).1 = JNI_EVERSION := by
  unfold GetEnv
  cases w.thread <;> simp <;> cases R.supports version <;> simp

theorem GetEnv_detached_iff {σ : Type} (R : Runtime) (version : Int) (w : World σ) :
    (GetEnv R version w).1 = JNI_EDETACHED ↔ w.thread = ThreadStatus.detached := by
  unfold GetEnv
  cases w.thread <;> simp <;> cases R.supports version <;> simp [JNI_OK, JNI_EDETACHED,
      JNI_EVERSION]

/-- The thread status after the callback, in every case in which the source has defined
behaviour: the status is kept, except that an attached native thread on which the
callback is run ends detached. -/
theorem zmq_error_cb_thread {σ : Type} (R : Runtime) (err : Int) (host : String)
    (ctx : ctx_data) (w : World σ) (hvm : ctx.vm ≠ none) :
    ∃ w1, zmq_error_cb R err host (some ctx) w = some w1
      ∧ (w1.thread =
          if w.thread = ThreadStatus.attachedNative ∧ R.supports JNI_VERSION_1_8 = true
          then ThreadStatus.detached else w.thread) := by
  obtain ⟨v, hv⟩ := Option.ne_none_iff_exists'.mp hvm
  cases ht : w.thread <;> cases hs : R.supports JNI_VERSION_1_8 <;>
    by_cases ha : R.AttachCurrentThread = 0 <;>
    simp [zmq_error_cb, zmq_error_cb_call, GetEnv, AttachCurrentThread, DetachCurrentThread,
      CallVoidMethod, printf, hv, ht, hs, ha, JNI_OK, JNI_EDETACHED, JNI_EVERSION]

/-- Claim C5, evaluated on the failing input: with a registration record present and the
calling thread already attached (as a native thread, JNI 1.8 supported), the callback
returns with the thread detached, although it was attached on entry. -/
theorem zmq_error_cb_detaches_attached_thread :
    (world0 (store0 0 0 0) 4096 ThreadStatus.attachedNative).thread.isAttached = true
      ∧ (zmq_error_cb (runtime0 true true 0) 156384765 "tcp://10.0.0.1:5555" (some record0)
          (world0 (store0 0 0 0) 4096 ThreadStatus.attachedNative)).map
            (fun w => w.thread.isAttached) = some false := by
  constructor <;> rfl

/-- The invocations made by the callback on a registration record whose VM pointer is
set: the callback always returns and invokes the stored method at most once.  It invokes nothing when the record
is absent, when the thread is detached and attaching fails, and when the runtime answers
that the requested version is unsupported.  In the remaining cases (thread attached and
version accepted, or thread detached and attach succeeds) it invokes exactly once the
stored method on the stored target, with the translated code and the marshalled host
string; the translated code is null when the stored translator class or method is. -/
theorem zmq_error_cb_invokes_at_most_once {σ : Type} (R : Runtime) (err : Int) (host : String)
    (ctx : ctx_data) (w : World σ) (hvm : ctx.vm ≠ none) :
    zmq_error_cb R err host none w = some w
      ∧ (∃ w1, zmq_error_cb R err host (some ctx) w = some w1
          ∧ (w1.invoked = w.invoked
              ∨ w1.invoked = w.invoked ++ [Invocation.mk ctx.obj ctx.method
                  (errorByCode R (some ()) ctx.errClass ctx.errMethod err) (NewStringUTF host)]))
      ∧ (w.thread = ThreadStatus.detached → R.AttachCurrentThread ≠ 0 →
          ∃ w1, zmq_error_cb R err host (some ctx) w = some w1 ∧ w1.invoked = w.invoked)
      ∧ ((GetEnv R JNI_VERSION_1_8 w).1 = JNI_EVERSION →
          ∃ w1, zmq_error_cb R err host (some ctx) w = some w1 ∧ w1.invoked = w.invoked)
      ∧ ((w.thread.isAttached = true ∧ (GetEnv R JNI_VERSION_1_8 w).1 ≠ JNI_EVERSION)
            ∨ (w.thread = ThreadStatus.detached ∧ R.AttachCurrentThread = 0) →
          ∃ w1, zmq_error_cb R err host (some ctx) w = some w1
            ∧ w1.invoked = w.invoked ++ [Invocation.mk ctx.obj ctx.method
                (errorByCode R (some ()) ctx.errClass ctx.errMethod err) (NewStringUTF host)])
      ∧ (ctx.errClass = none ∨ ctx.errMethod = none →
          errorByCode R (some ()) ctx.errClass ctx.errMethod err = none) := by
  obtain ⟨v, hv⟩ := Option.ne_none_iff_exists'.mp hvm
  refine ⟨rfl, ?_, ?_, ?_, ?_, ?_⟩
  · cases ht : w.thread <;> cases hs : R.supports JNI_VERSION_1_8 <;>
      by_cases ha : R.AttachCurrentThread = 0 <;>
      simp [zmq_error_cb, zmq_error_cb_call, GetEnv, AttachCurrentThread, DetachCurrentThread,
        CallVoidMethod, printf, hv, ht, hs, ha, JNI_OK, JNI_EDETACHED, JNI_EVERSION]
  · intro ht ha
    simp [zmq_error_cb, GetEnv, AttachCurrentThread, printf, hv, ht, ha, JNI_EDETACHED]
  · intro hg
    cases ht : w.thread <;> cases hs : R.supports JNI_VERSION_1_8 <;>
      simp [GetEnv, ht, hs, JNI_OK, JNI_EDETACHED, JNI_EVERSION] at hg <;>
      simp [zmq_error_cb, GetEnv, printf, hv, ht, hs, JNI_OK, JNI_EDETACHED, JNI_EVERSION]
  · rintro (⟨hat, hg⟩ | ⟨ht, ha⟩)
    · cases ht : w.thread <;> cases hs : R.supports JNI_VERSION_1_8 <;>
        simp [GetEnv, ht, hs, ThreadStatus.isAttached, JNI_OK, JNI_EDETACHED, JNI_EVERSION]
          at hg hat <;>
        simp [zmq_error_cb, zmq_error_cb_call, GetEnv, DetachCurrentThread, CallVoidMethod, hv,
          ht, hs, JNI_OK, JNI_EDETACHED, JNI_EVERSION]
    · simp [zmq_error_cb, zmq_error_cb_call, GetEnv, AttachCurrentThread, DetachCurrentThread,
        CallVoidMethod, hv, ht, ha, JNI_EDETACHED]
  · rintro (h | h)
    · simp [errorByCode, h]
    · cases hc : ctx.errClass <;> simp [errorByCode, h]

/-- Concrete instance of the statement on records with a VM pointer: a detached thread
that attaches, and a translator that maps the code 156384765 to object 156384865. -/
theorem zmq_error_cb_invokes_once_instance :
    (zmq_error_cb (runtime0 true true 0) 156384765 "tcp://10.0.0.1:5555" (some record0)
        (world0 (store0 0 0 0) 4096 ThreadStatus.detached)).map (fun w => w.invoked)
      = some [Invocation.mk (some 5) (some 7) (some 156384865) (some "tcp://10.0.0.1:5555")] :=
  match (zmq_error_cb_invokes_at_most_once (runtime0 true true 0) 156384765
      "tcp://10.0.0.1:5555" record0 (world0 (store0 0 0 0) 4096 ThreadStatus.detached)
      (by decide)).2.2.2.2.1 (Or.inr ⟨rfl, rfl⟩) with
  | ⟨_, h1, h2⟩ => (congrArg (Option.map fun w => w.invoked) h1).trans (congrArg some h2)

/-- The translated code passed to the callback: the result of the static translator
method on the error code when both the translator class and method are set. -/
theorem errorByCode_of_translator (R : Runtime) (cls m : Nat) (err : Int) :
    errorByCode R (some ()) (some cls) (some m) err = R.CallStaticObjectMethod cls m err := by
  rfl

/-- On a registration record whose VM pointer is null the callback has no defined
result: the source dereferences the pointer before anything else. -/
theorem zmq_error_cb_of_null_vm {σ : Type} (R : Runtime) (err : Int) (host : String)
    (ctx : ctx_data) (w : World σ) (hvm : ctx.vm = none) :
    zmq_error_cb R err host (some ctx) w = none := by
  simp [zmq_error_cb, hvm]

/-- Claim C10, evaluated on the failing input.  When GetJavaVM fails, setErrorHandler on
a live handle with a valid target still returns true and registers the callback with a
record whose VM pointer is null.  Run on that record by a thread that is already
attached, with the requested version supported (a case in which the callback is to be
invoked exactly once), the callback dereferences the null pointer: it has no result
and invokes nothing, also when the library delivers an error to the installed
callback. -/
theorem zmq_error_cb_null_vm_not_invoked :
    ((Java_org_zeromq_ZMQ_00024Context_setErrorHandler (storeLib 40203) runtime1 0 (some 5)
          (world0 (store0 0 0 0) 4096 ThreadStatus.attachedJava)).1 = true
      ∧ (Java_org_zeromq_ZMQ_00024Context_setErrorHandler (storeLib 40203) runtime1 0 (some 5)
          (world0 (store0 0 0 0) 4096 ThreadStatus.attachedJava)).2.calls
        = [NativeCall.zmq_error_handler 4096 (some Callback.zmq_error_cb) (some record1) 0]
      ∧ record1.vm = none)
      ∧ ((world0 (store0 0 0 0) 4096 ThreadStatus.attachedJava).thread.isAttached = true
        ∧ (GetEnv runtime1 JNI_VERSION_1_8
            (world0 (store0 0 0 0) 4096 ThreadStatus.attachedJava)).1 = JNI_OK
        ∧ (zmq_error_cb runtime1 156384765 "tcp://10.0.0.1:5555" (some record1)
            (world0 (store0 0 0 0) 4096 ThreadStatus.attachedJava)).map (fun w => w.invoked)
          = none)
      ∧ (deliver (storeLib 40203) runtime1 4096 156384765 "tcp://10.0.0.1:5555"
          (Java_org_zeromq_ZMQ_00024Context_setErrorHandler (storeLib 40203) runtime1 0 (some 5)
            (world0 (store0 0 0 0) 4096 ThreadStatus.attachedJava)).2).map
            (fun w => w.invoked)
        = none := by
  refine ⟨⟨rfl, rfl, rfl⟩, ⟨rfl, rfl, rfl⟩, rfl⟩

/-! ## setErrorHandler, setMaxSockets, getMaxSockets -/

/-- Claim C7: on an object whose handle field is absent, and for every argument and
every library version, setErrorHandler and setMaxSockets return false and getMaxSockets
returns -1; none of them logs a native call, changes the library state, raises an
exception, allocates a registration record, pins a reference or changes a handle
field. -/
theorem absent_handle_reports_failure {σ : Type} (L : ZmqLib σ) (R : Runtime) (obj : Nat)
    (error : jobject) (maxSockets : Int) (w : World σ) (habsent : w.contextHandle obj = 0) :
    ((Java_org_zeromq_ZMQ_00024Context_setErrorHandler L R obj error w).1 = false
        ∧ (Java_org_zeromq_ZMQ_00024Context_setErrorHandler L R obj error w).2.calls = w.calls
        ∧ (Java_org_zeromq_ZMQ_00024Context_setErrorHandler L R obj error w).2.zmq = w.zmq
        ∧ (Java_org_zeromq_ZMQ_00024Context_setErrorHandler L R obj error w).2.raised = w.raised
        ∧ (Java_org_zeromq_ZMQ_00024Context_setErrorHandler L R obj error w).2.records = w.records
        ∧ (Java_org_zeromq_ZMQ_00024Context_setErrorHandler L R obj error w).2.globalRefs =
            w.globalRefs
        ∧ (Java_org_zeromq_ZMQ_00024Context_setErrorHandler L R obj error w).2.contextHandle =
            w.contextHandle)
      ∧ ((Java_org_zeromq_ZMQ_00024Context_setMaxSockets L obj maxSockets w).1 = false
        ∧ (Java_org_zeromq_ZMQ_00024Context_setMaxSockets L obj maxSockets w).2.calls = w.calls
        ∧ (Java_org_zeromq_ZMQ_00024Context_setMaxSockets L obj maxSockets w).2.zmq = w.zmq
        ∧ (Java_org_zeromq_ZMQ_00024Context_setMaxSockets L obj maxSockets w).2.raised = w.raised
        ∧ (Java_org_zeromq_ZMQ_00024Context_setMaxSockets L obj maxSockets w).2.records = w.records
        ∧ (Java_org_zeromq_ZMQ_00024Context_setMaxSockets L obj maxSockets w).2.globalRefs =
            w.globalRefs
        ∧ (Java_org_zeromq_ZMQ_00024Context_setMaxSockets L obj maxSockets w).2.contextHandle =
            w.contextHandle)
      ∧ ((Java_org_zeromq_ZMQ_00024Context_getMaxSockets L obj w).1 = -1
        ∧ (Java_org_zeromq_ZMQ_00024Context_getMaxSockets L obj w).2.calls = w.calls
        ∧ (Java_org_zeromq_ZMQ_00024Context_getMaxSockets L obj w).2.zmq = w.zmq
        ∧ (Java_org_zeromq_ZMQ_00024Context_getMaxSockets L obj w).2.raised = w.raised
        ∧ (Java_org_zeromq_ZMQ_00024Context_getMaxSockets L obj w).2.records = w.records
        ∧ (Java_org_zeromq_ZMQ_00024Context_getMaxSockets L obj w).2.globalRefs = w.globalRefs
        ∧ (Java_org_zeromq_ZMQ_00024Context_getMaxSockets L obj w).2.contextHandle =
            w.contextHandle) := by
  refine ⟨?_, ?_, ?_⟩
  · by_cases hver : L.ZMQ_VERSION ≥ ZMQ_MAKE_VERSION 4 2 3 <;>
      simp [Java_org_zeromq_ZMQ_00024Context_setErrorHandler, get_context, hver, habsent,
          to_ptr_zero]
  · by_cases hver : L.ZMQ_VERSION ≥ ZMQ_MAKE_VERSION 3 0 0 <;>
      simp [Java_org_zeromq_ZMQ_00024Context_setMaxSockets, get_context, hver, habsent, to_ptr_zero]
  · by_cases hver : L.ZMQ_VERSION ≥ ZMQ_MAKE_VERSION 3 0 0 <;>
      simp [Java_org_zeromq_ZMQ_00024Context_getMaxSockets, get_context, hver, habsent, to_ptr_zero]

/-- Concrete instance: an object with an absent handle, a present callback target. -/
theorem absent_handle_reports_failure_witness :
    (Java_org_zeromq_ZMQ_00024Context_setErrorHandler (storeLib 40203) (runtime0 true true 0) 0
        (some 5)
        (world0 (store0 0 0 0) 0 ThreadStatus.attachedJava)).1 = false
      ∧ (Java_org_zeromq_ZMQ_00024Context_setMaxSockets (storeLib 40203) 0 64
          (world0 (store0 0 0 0) 0 ThreadStatus.attachedJava)).1 = false
      ∧ (Java_org_zeromq_ZMQ_00024Context_getMaxSockets (storeLib 40203) 0
          (world0 (store0 0 0 0) 0 ThreadStatus.attachedJava)).1 = -1 :=
  have h := absent_handle_reports_failure (storeLib 40203) (runtime0 true true 0) 0 (some 5) 64
    (world0 (store0 0 0 0) 0 ThreadStatus.attachedJava) rfl
  ⟨h.1.1, h.2.1.1, h.2.2.1⟩

/-- Claim C6: on an object holding a live handle, with a present callback target whose
class has no method reportError of the required signature, and for every library
version, setErrorHandler returns false, logs no native call and leaves the library state
(hence the installed native callback) as it was, allocates no registration record and
pins no reference. -/
theorem setErrorHandler_missing_method {σ : Type} (L : ZmqLib σ) (R : Runtime) (obj e : Nat)
    (w : World σ) (hr : isJlong (w.contextHandle obj)) (hlive : w.contextHandle obj ≠ 0)
    (hmethod : R.GetMethodID (R.GetObjectClass e) "reportError"
      "(Lorg/zeromq/ZMQ$Error;Ljava/lang/String;)I" = none) :
    (Java_org_zeromq_ZMQ_00024Context_setErrorHandler L R obj (some e) w).1 = false
      ∧ (Java_org_zeromq_ZMQ_00024Context_setErrorHandler L R obj (some e) w).2.calls = w.calls
      ∧ (Java_org_zeromq_ZMQ_00024Context_setErrorHandler L R obj (some e) w).2.zmq = w.zmq
      ∧ (∀ c, L.installed (Java_org_zeromq_ZMQ_00024Context_setErrorHandler L R obj (some e)
          w).2.zmq c = L.installed w.zmq c)
      ∧ (Java_org_zeromq_ZMQ_00024Context_setErrorHandler L R obj (some e) w).2.records = w.records
      ∧ (Java_org_zeromq_ZMQ_00024Context_setErrorHandler L R obj (some e) w).2.globalRefs =
          w.globalRefs := by
  have hp := to_ptr_ne_zero _ hr hlive
  by_cases hver : L.ZMQ_VERSION ≥ ZMQ_MAKE_VERSION 4 2 3 <;>
    simp [Java_org_zeromq_ZMQ_00024Context_setErrorHandler, get_context, hver, hp, hmethod]

/-- Concrete instance: handle 4096, a target whose class lacks reportError. -/
theorem setErrorHandler_missing_method_witness :
    (Java_org_zeromq_ZMQ_00024Context_setErrorHandler (storeLib 40203) (runtime0 false true 0) 0
        (some 5)
        (world0 (store1 0) 4096 ThreadStatus.attachedJava)).1 = false
      ∧ (Java_org_zeromq_ZMQ_00024Context_setErrorHandler (storeLib 40203) (runtime0 false true 0) 0
          (some 5)
          (world0 (store1 0) 4096 ThreadStatus.attachedJava)).2.calls = [] :=
  have h := setErrorHandler_missing_method (storeLib 40203) (runtime0 false true 0) 0 5
    (world0 (store1 0) 4096 ThreadStatus.attachedJava) (by decide) (by decide) rfl
  ⟨h.1, h.2.1⟩

/-- Counterexample to claim C8 as stated.  Compiled against library version 4.2.2, setErrorHandler
with an absent target on a live handle returns false and logs no native call at all.
Compiled against 4.2.3, when the registration call fails (code -1) and leaves the
installed callback in place, the call is made and false is returned, and an error
delivered afterwards still invokes the managed callback. -/
theorem setErrorHandler_null_counterexample :
    ((Java_org_zeromq_ZMQ_00024Context_setErrorHandler (storeLib 40202) (runtime0 true true 0) 0
        none
          (world0 (store1 0) 4096 ThreadStatus.attachedJava)).1 = false
        ∧ (Java_org_zeromq_ZMQ_00024Context_setErrorHandler (storeLib 40202) (runtime0 true true 0)
            0 none
            (world0 (store1 0) 4096 ThreadStatus.attachedJava)).2.calls = [])
      ∧ ((Java_org_zeromq_ZMQ_00024Context_setErrorHandler (storeLib 40203) (runtime0 true true 0) 0
          none
            (world0 (store1 (-1)) 4096 ThreadStatus.attachedJava)).2.calls
          = [NativeCall.zmq_error_handler 4096 none none (-1)]
        ∧ (deliver (storeLib 40203) (runtime0 true true 0) 4096 156384765 "tcp://10.0.0.1:5555"
            (Java_org_zeromq_ZMQ_00024Context_setErrorHandler (storeLib 40203) (runtime0 true true
                0) 0 none
              (world0 (store1 (-1)) 4096 ThreadStatus.attachedJava)).2).map
              (fun w => w.invoked)
          = some [Invocation.mk (some 5) (some 7) (some 156384865)
              (some "tcp://10.0.0.1:5555")]) := by
  refine ⟨⟨rfl, rfl⟩, rfl, rfl⟩

/-- Claim C8, amended: on an object holding a live handle h, with an absent target.
Compiled against a library version of at least 4.2.3, setErrorHandler logs exactly one
native call, the registration call with arguments (h, no callback, no context data),
allocates no registration record, pins no reference, leaves every handle field as it
was, and returns true exactly when that call returned 0.  If moreover a registration
call with no callback that returns 0 leaves no callback installed on its context, then
after a call that returned true an error delivered on h invokes nothing: delivery
leaves the world as it is.  Compiled against an older version, setErrorHandler returns
false and leaves the world exactly as it was (no native call), for every target. -/
theorem setErrorHandler_null_uninstalls {σ : Type} (L : ZmqLib σ) (R : Runtime) (obj : Nat)
    (w : World σ) (hr : isJlong (w.contextHandle obj)) (hlive : w.contextHandle obj ≠ 0) :
    (L.ZMQ_VERSION ≥ ZMQ_MAKE_VERSION 4 2 3 →
      ((Java_org_zeromq_ZMQ_00024Context_setErrorHandler L R obj none w).2.calls
        = w.calls ++ [NativeCall.zmq_error_handler (to_ptr (w.contextHandle obj)) none none
            (L.zmq_error_handler (to_ptr (w.contextHandle obj)) none none w.zmq).1]
      ∧ (Java_org_zeromq_ZMQ_00024Context_setErrorHandler L R obj none w).2.records = w.records
      ∧ (Java_org_zeromq_ZMQ_00024Context_setErrorHandler L R obj none w).2.globalRefs =
          w.globalRefs
      ∧ (Java_org_zeromq_ZMQ_00024Context_setErrorHandler L R obj none w).2.contextHandle =
          w.contextHandle
      ∧ ((Java_org_zeromq_ZMQ_00024Context_setErrorHandler L R obj none w).1 = true
          ↔ (L.zmq_error_handler (to_ptr (w.contextHandle obj)) none none w.zmq).1 = 0)
      ∧ ((∀ s c, (L.zmq_error_handler c none none s).1 = 0 →
            L.installed (L.zmq_error_handler c none none s).2 c = none) →
          (Java_org_zeromq_ZMQ_00024Context_setErrorHandler L R obj none w).1 = true →
          ∀ err host, deliver L R (to_ptr (w.contextHandle obj)) err host
              (Java_org_zeromq_ZMQ_00024Context_setErrorHandler L R obj none w).2 = some
                  (Java_org_zeromq_ZMQ_00024Context_setErrorHandler L R obj none w).2)))
      ∧ (L.ZMQ_VERSION < ZMQ_MAKE_VERSION 4 2 3 →
          ∀ error, Java_org_zeromq_ZMQ_00024Context_setErrorHandler L R obj error w = (false, w)) := by
  have hp := to_ptr_ne_zero _ hr hlive
  refine ⟨fun hver => ⟨?_, ?_, ?_, ?_, ?_, ?_⟩, ?_⟩
  · simp [Java_org_zeromq_ZMQ_00024Context_setErrorHandler, get_context, call_zmq_error_handler,
      hver, hp]
  · simp [Java_org_zeromq_ZMQ_00024Context_setErrorHandler, get_context, call_zmq_error_handler,
      hver, hp]
  · simp [Java_org_zeromq_ZMQ_00024Context_setErrorHandler, get_context, call_zmq_error_handler,
      hver, hp]
  · simp [Java_org_zeromq_ZMQ_00024Context_setErrorHandler, get_context, call_zmq_error_handler,
      hver, hp]
  · simp [Java_org_zeromq_ZMQ_00024Context_setErrorHandler, get_context, call_zmq_error_handler,
      hver, hp]
  · intro hlaw hres err host
    have hrc : (L.zmq_error_handler (to_ptr (w.contextHandle obj)) none none w.zmq).1 = 0 := by
      simpa [Java_org_zeromq_ZMQ_00024Context_setErrorHandler, get_context, call_zmq_error_handler,
          hver, hp] using hres
    have hinst := hlaw w.zmq (to_ptr (w.contextHandle obj)) hrc
    simp [Java_org_zeromq_ZMQ_00024Context_setErrorHandler, get_context, call_zmq_error_handler,
        hver, hp, deliver, hinst]
  · intro hold error
    have hnot : ¬ L.ZMQ_VERSION ≥ ZMQ_MAKE_VERSION 4 2 3 := Nat.not_le.mpr hold
    simp [Java_org_zeromq_ZMQ_00024Context_setErrorHandler, hnot]

/-- Concrete instance: compiled against 4.2.3, the callback installed on handle 4096 is
removed, and an error delivered afterwards invokes nothing; compiled against 4.2.2 the
call returns false. -/
theorem setErrorHandler_null_uninstalls_witness :
    (Java_org_zeromq_ZMQ_00024Context_setErrorHandler (storeLib 40203) (runtime0 true true 0) 0 none
        (world0 (store1 0) 4096 ThreadStatus.attachedJava)).2.calls
        = [NativeCall.zmq_error_handler 4096 none none 0]
      ∧ (deliver (storeLib 40203) (runtime0 true true 0) 4096 156384765 "tcp://10.0.0.1:5555"
          (Java_org_zeromq_ZMQ_00024Context_setErrorHandler (storeLib 40203) (runtime0 true true 0)
              0 none
            (world0 (store1 0) 4096 ThreadStatus.attachedJava)).2).map (fun w => w.invoked)
        = some []
      ∧ (Java_org_zeromq_ZMQ_00024Context_setErrorHandler (storeLib 40202) (runtime0 true true 0) 0 none
          (world0 (store1 0) 4096 ThreadStatus.attachedJava)).1 = false :=
  have h := (setErrorHandler_null_uninstalls (storeLib 40203) (runtime0 true true 0) 0
    (world0 (store1 0) 4096 ThreadStatus.attachedJava) (by decide) (by decide)).1 (by decide)
  have hold := (setErrorHandler_null_uninstalls (storeLib 40202) (runtime0 true true 0) 0
    (world0 (store1 0) 4096 ThreadStatus.attachedJava) (by decide) (by decide)).2 (by decide) none
  have hlaw : ∀ (s : Store) (c : Nat), ((storeLib 40203).zmq_error_handler c none none s).1 = 0 →
      (storeLib 40203).installed ((storeLib 40203).zmq_error_handler c none none s).2 c = none := by
    intro s c hrc
    by_cases h0 : s.handler_rc = 0
    · simp [storeLib, h0]
    · simp [storeLib, h0] at hrc
  ⟨h.1, (congrArg (Option.map fun w => w.invoked)
    (h.2.2.2.2.2 hlaw (h.2.2.2.2.1.mpr rfl) 156384765 "tcp://10.0.0.1:5555")).trans rfl,
    congrArg Prod.fst hold⟩

/-- Claim C9: on an object holding a live handle h, for every integer n and every
library version.  If the library is an option store (a config-set of the maximum-socket
option that returns 0 makes the next config-get of that option on the same context
return the value set), then setMaxSockets(n) returning true makes an immediately
following getMaxSockets return n.  setMaxSockets returns true exactly when it made the
config-set call (h, maximum sockets, n) and that call returned 0; when the library
version is at least 3.0.0 the call is always made.  Neither operation changes a handle field. -/
theorem maxSockets_roundtrip {σ : Type} (L : ZmqLib σ) (obj : Nat) (n : Int) (w : World σ)
    (hr : isJlong (w.contextHandle obj)) (hlive : w.contextHandle obj ≠ 0) :
    ((∀ s c v, (L.zmq_ctx_set c ZMQ_MAX_SOCKETS v s).1 = 0 →
          (L.zmq_ctx_get c ZMQ_MAX_SOCKETS (L.zmq_ctx_set c ZMQ_MAX_SOCKETS v s).2).1 = v) →
        (Java_org_zeromq_ZMQ_00024Context_setMaxSockets L obj n w).1 = true →
        (Java_org_zeromq_ZMQ_00024Context_getMaxSockets L obj
            (Java_org_zeromq_ZMQ_00024Context_setMaxSockets L obj n w).2).1 = n)
      ∧ ((Java_org_zeromq_ZMQ_00024Context_setMaxSockets L obj n w).1 = true
          ↔ (Java_org_zeromq_ZMQ_00024Context_setMaxSockets L obj n w).2.calls
              = w.calls ++ [NativeCall.zmq_ctx_set (to_ptr (w.contextHandle obj))
                  ZMQ_MAX_SOCKETS n 0])
      ∧ (L.ZMQ_VERSION ≥ ZMQ_MAKE_VERSION 3 0 0 →
          (Java_org_zeromq_ZMQ_00024Context_setMaxSockets L obj n w).2.calls
              = w.calls ++ [NativeCall.zmq_ctx_set (to_ptr (w.contextHandle obj))
                  ZMQ_MAX_SOCKETS n
                  (L.zmq_ctx_set (to_ptr (w.contextHandle obj)) ZMQ_MAX_SOCKETS n w.zmq).1]
            ∧ ((Java_org_zeromq_ZMQ_00024Context_setMaxSockets L obj n w).1 = true
                ↔ (L.zmq_ctx_set (to_ptr (w.contextHandle obj)) ZMQ_MAX_SOCKETS n w.zmq).1 = 0))
      ∧ (Java_org_zeromq_ZMQ_00024Context_setMaxSockets L obj n w).2.contextHandle = w.contextHandle
      ∧ (Java_org_zeromq_ZMQ_00024Context_getMaxSockets L obj
          (Java_org_zeromq_ZMQ_00024Context_setMaxSockets L obj n w).2).2.contextHandle =
          w.contextHandle
      ∧ (Java_org_zeromq_ZMQ_00024Context_getMaxSockets L obj w).2.contextHandle = w.contextHandle
          := by
  have hp := to_ptr_ne_zero _ hr hlive
  by_cases hver : L.ZMQ_VERSION ≥ ZMQ_MAKE_VERSION 3 0 0
  · refine ⟨?_, ?_, ?_, ?_, ?_, ?_⟩
    · intro hlaw hres
      have hrc : (L.zmq_ctx_set (to_ptr (w.contextHandle obj)) ZMQ_MAX_SOCKETS n w.zmq).1 = 0 := by
        simpa [Java_org_zeromq_ZMQ_00024Context_setMaxSockets, get_context, call_zmq_ctx_set, hver,
            hp] using hres
      have hget := hlaw w.zmq (to_ptr (w.contextHandle obj)) n hrc
      simp [Java_org_zeromq_ZMQ_00024Context_setMaxSockets,
          Java_org_zeromq_ZMQ_00024Context_getMaxSockets, get_context, call_zmq_ctx_set,
          call_zmq_ctx_get, hver,
        hp, hget]
    · simp [Java_org_zeromq_ZMQ_00024Context_setMaxSockets, get_context, call_zmq_ctx_set, hver, hp]
    · intro _
      simp [Java_org_zeromq_ZMQ_00024Context_setMaxSockets, get_context, call_zmq_ctx_set, hver, hp]
    · simp [Java_org_zeromq_ZMQ_00024Context_setMaxSockets, get_context, call_zmq_ctx_set, hver, hp]
    · simp [Java_org_zeromq_ZMQ_00024Context_setMaxSockets,
        Java_org_zeromq_ZMQ_00024Context_getMaxSockets, get_context, call_zmq_ctx_set,
        call_zmq_ctx_get, hver,
        hp]
    · simp [Java_org_zeromq_ZMQ_00024Context_getMaxSockets, get_context, call_zmq_ctx_get, hver, hp]
  · refine ⟨?_, ?_, ?_, ?_, ?_, ?_⟩
    · intro _ hres
      simp [Java_org_zeromq_ZMQ_00024Context_setMaxSockets, hver] at hres
    · simp [Java_org_zeromq_ZMQ_00024Context_setMaxSockets, hver]
    · intro h; exact absurd h hver
    · simp [Java_org_zeromq_ZMQ_00024Context_setMaxSockets, hver]
    · simp [Java_org_zeromq_ZMQ_00024Context_setMaxSockets,
        Java_org_zeromq_ZMQ_00024Context_getMaxSockets, hver]
    · simp [Java_org_zeromq_ZMQ_00024Context_getMaxSockets, hver]

/-- Concrete instance: handle 4096, the limit 64 is accepted and read back. -/
theorem maxSockets_roundtrip_witness :
    (Java_org_zeromq_ZMQ_00024Context_setMaxSockets (storeLib 40203) 0 64 (world0 (store0 0 0 0)
        4096 ThreadStatus.attachedJava)).1
        = true
      ∧ (Java_org_zeromq_ZMQ_00024Context_getMaxSockets (storeLib 40203) 0
          (Java_org_zeromq_ZMQ_00024Context_setMaxSockets (storeLib 40203) 0 64
            (world0 (store0 0 0 0) 4096 ThreadStatus.attachedJava)).2).1 = 64 :=
  have h := maxSockets_roundtrip (storeLib 40203) 0 64
    (world0 (store0 0 0 0) 4096 ThreadStatus.attachedJava) (by decide) (by decide)
  have hlaw : ∀ (s : Store) (c : Nat) (v : Int),
      ((storeLib 40203).zmq_ctx_set c ZMQ_MAX_SOCKETS v s).1 = 0 →
      ((storeLib 40203).zmq_ctx_get c ZMQ_MAX_SOCKETS
        ((storeLib 40203).zmq_ctx_set c ZMQ_MAX_SOCKETS v s).2).1 = v := by
    intro s c v hrc
    by_cases hv : 1 ≤ v
    · simp [storeLib, hv]
    · simp [storeLib, hv] at hrc
  ⟨rfl, h.1 hlaw rfl⟩

end JZmq
